import Mathlib

/-!
# Frame Coordinate Normalizer — verification

Shallow embedding of the frame-to-rectangle coordinate transform of the
`bokeh_time_series` notebooks.  The data-preparation cell builds four parallel
lists from the frame table:

  l_values = [(s % SECONDS_IN_A_DAY) for s in df['start_time_s'].tolist()]
  r_values = [s + a for s, a in zip(l_values, df['acq_time_s'].tolist())]
  t_values = df['pixels_per_second'].tolist()
  b_values = [0.0] * len(l_values)

and the plotting cell configures the figure with
`get_day_plot_figure(max(t_values))`.

Integers are modelled as `Int` (Python ints are unbounded; Python's `%` with a
positive divisor is the non-negative floor modulo, which coincides with Lean's
`Int.emod`).  Floating-point columns (`acq_time_s`, `pixels_per_second`) are
modelled as `ℚ`: the transform performs only addition and pass-through on them.
-/

namespace BokehTS

/-- One row of the frame table, with the four columns the notebook reads
(`start_time_s`, `acq_time_s`, `n_pixels`, `pixels_per_second`). -/
structure FrameRecord where
  start_time_s : Int
  acq_time_s : ℚ
  n_pixels : Int
  pixels_per_second : ℚ
  deriving DecidableEq, Repr

/-- Modelled from the spec: the constant `SECONDS_IN_A_DAY` is imported from
`timevals.py`, which is absent from the sources; the spec fixes it to 86400
(and the notebook's rendered output shows an x-range ending at 86400). -/
def SECONDS_IN_A_DAY : Int := 86400

/-- The left-hand values for each frame: start time modulo seconds-in-a-day
(`[(s % SECONDS_IN_A_DAY) for s in df['start_time_s'].tolist()]`). -/
def l_values (df : List FrameRecord) : List Int :=
  (df.map FrameRecord.start_time_s).map (fun s => s % SECONDS_IN_A_DAY)

/-- The right-hand values for each frame: left value plus acquisition time
(`[s + a for s, a in zip(l_values, df['acq_time_s'].tolist())]`). -/
def r_values (df : List FrameRecord) : List ℚ :=
  (List.zip (l_values df) (df.map FrameRecord.acq_time_s)).map
    (fun p => (p.1 : ℚ) + p.2)

/-- The top values for each frame: the pixels-per-second column, unchanged
(`df['pixels_per_second'].tolist()`). -/
def t_values (df : List FrameRecord) : List ℚ :=
  df.map FrameRecord.pixels_per_second

/-- The bottom values for each frame: a list of zeroes, one per left value
(`[0.0] * len(l_values)`). -/
def b_values (df : List FrameRecord) : List ℚ :=
  List.replicate (l_values df).length 0

/-- The four corner coordinates of one plotted rectangle, as consumed by the
`quad` call (`left`, `right`, `top`, `bottom`). -/
structure RectangleCoordinates where
  left : Int
  right : ℚ
  top : ℚ
  bottom : ℚ
  deriving DecidableEq, Repr

/-- The rectangle the transform produces for a single frame: left is the
day-wrapped start time, right is left plus acquisition time, top is the
pass-through rate, bottom is zero. -/
def frameToRect (f : FrameRecord) : RectangleCoordinates :=
  { left := f.start_time_s % SECONDS_IN_A_DAY
  , right := ((f.start_time_s % SECONDS_IN_A_DAY : Int) : ℚ) + f.acq_time_s
  , top := f.pixels_per_second
  , bottom := 0 }

/-- The spec's `normalize`: the notebook hands the four parallel lists to
`p.quad`, so the rectangle sequence is the index-wise zip of
`l_values`, `r_values`, `t_values` and `b_values`. -/
def normalize (df : List FrameRecord) : List RectangleCoordinates :=
  (((l_values df).zip (r_values df)).zip ((t_values df).zip (b_values df))).map
    (fun p => { left := p.1.1, right := p.1.2, top := p.2.1, bottom := p.2.2 })

/-- Python's built-in `max` over a list: an error (`none`) on the empty list,
otherwise a left fold of the binary maximum over the elements. -/
def listMax : List ℚ → Option ℚ
  | [] => none
  | x :: xs => some (xs.foldl max x)

/-- Modelled from the spec: `get_day_plot_figure` lives in `plottools.py`,
which is absent from the sources; per the spec it configures a day-wide figure
whose upper y-axis limit is the scalar passed by the caller.  Only that limit
is modelled. -/
structure DayPlotFigure where
  y_upper : ℚ
  deriving DecidableEq, Repr

/-- Modelled from the spec: the figure helper records its argument as the
figure's upper y-axis limit. -/
def get_day_plot_figure (m : ℚ) : DayPlotFigure :=
  { y_upper := m }

/-- The notebook's plotting step `p = get_day_plot_figure(max(t_values))`:
fails (`none`) when `max` is applied to an empty list. -/
def dayPlotFigureOfFrames (df : List FrameRecord) : Option DayPlotFigure :=
  (listMax (t_values df)).map get_day_plot_figure

/-! ## Structural helper lemmas (shared) -/

/-- The left values are an index-wise map over the frames. -/
theorem l_values_eq_map (df : List FrameRecord) :
    l_values df = df.map (fun f => f.start_time_s % SECONDS_IN_A_DAY) := by
  simp [l_values, List.map_map, Function.comp]

/-- The right values are an index-wise map over the frames. -/
theorem r_values_eq_map (df : List FrameRecord) :
    r_values df
      = df.map (fun f => ((f.start_time_s % SECONDS_IN_A_DAY : Int) : ℚ) + f.acq_time_s) := by
  induction df with
  | nil => rfl
  | cons f tl ih =>
      simpa [r_values, l_values, List.zip_cons_cons] using ih

/-- The bottom values are an index-wise map over the frames. -/
theorem b_values_eq_map (df : List FrameRecord) :
    b_values df = df.map (fun _ => (0 : ℚ)) := by
  simp [b_values, l_values, List.map_const]

/-- The rectangle sequence is the per-frame map of `frameToRect`: each output
entry is computed from the input frame at the same index alone. -/
theorem normalize_eq_map (df : List FrameRecord) :
    normalize df = df.map frameToRect := by
  induction df with
  | nil => rfl
  | cons f tl ih =>
      have hl := l_values_eq_map (f :: tl)
      have hr := r_values_eq_map (f :: tl)
      have hb := b_values_eq_map (f :: tl)
      simp only [normalize, l_values_eq_map, r_values_eq_map, b_values_eq_map,
        t_values, List.map_cons, List.zip_cons_cons] at *
      simpa [frameToRect] using ih

/-! ## Concrete frames used as test inputs -/

/-- A frame starting exactly one full day after the epoch (the spec's day-wrap
example). -/
def dayWrapFrame : FrameRecord := ⟨86400, 60, 57, 19/20⟩

/-- The spec's boundary example: a frame starting one second before midnight
and acquiring for 120 seconds. -/
def boundaryFrame : FrameRecord := ⟨86399, 120, 0, 0⟩

/-- The first data row of the repository's CSV
(start 1396447375, acq 60.0, 57 pixels, rate 0.95). -/
def exampleFrame : FrameRecord := ⟨1396447375, 60, 57, 19/20⟩

/-- A malformed record with a negative acquisition time (the spec's rejection
example uses `acq_time_s = -5`). -/
def badFrame : FrameRecord := ⟨0, -5, 0, 0⟩

/-- The second data row of the CSV (start 1396447435, acq 60.0, 41 pixels,
rate 0.683333): the stored rate is rounded, so rate × duration is
40.99998, not the stored pixel count 41. -/
def inconsistentFrame : FrameRecord := ⟨1396447435, 60, 41, 683333/1000000⟩

/-! ## Claim theorems -/

/-- Claim C1: for every frame index, the left coordinate is the start time
reduced modulo `SECONDS_IN_A_DAY` with non-negative-result semantics, hence
lies in `[0, SECONDS_IN_A_DAY)` regardless of the sign of `start_time_s`. -/
theorem C1_left_is_day_wrapped_mod (df : List FrameRecord) (i : Nat)
    (hi : i < df.length) :
    (l_values df)[i]? = some (df[i].start_time_s % SECONDS_IN_A_DAY) ∧
    0 ≤ df[i].start_time_s % SECONDS_IN_A_DAY ∧
    df[i].start_time_s % SECONDS_IN_A_DAY < SECONDS_IN_A_DAY := by
  refine ⟨?_, Int.emod_nonneg _ (by decide), Int.emod_lt_of_pos _ (by decide)⟩
  simp [l_values_eq_map, List.getElem?_map, List.getElem?_eq_getElem, hi]

/-- Witness for C1: a frame with `start_time_s = 86400` yields `left = 0`,
which is non-negative and below `SECONDS_IN_A_DAY`. -/
theorem C1_witness :
    0 < ([dayWrapFrame] : List FrameRecord).length ∧
    (l_values [dayWrapFrame])[0]? = some 0 ∧
    (0 : Int) ≤ 0 ∧ (0 : Int) < SECONDS_IN_A_DAY := by
  have h := C1_left_is_day_wrapped_mod [dayWrapFrame] 0 (by decide)
  refine ⟨by decide, ?_, by decide, by decide⟩
  rw [h.1]; decide

/-- Claim C2: for every frame index, the right coordinate equals the left
coordinate plus `acq_time_s` — no wraparound or clipping — and exceeds or
equals the left coordinate whenever `acq_time_s` is non-negative. -/
theorem C2_right_is_left_plus_acq (df : List FrameRecord) (i : Nat)
    (hi : i < df.length) :
    (r_values df)[i]? =
      some (((df[i].start_time_s % SECONDS_IN_A_DAY : Int) : ℚ) + df[i].acq_time_s) ∧
    (0 ≤ df[i].acq_time_s →
      ((df[i].start_time_s % SECONDS_IN_A_DAY : Int) : ℚ) ≤
        ((df[i].start_time_s % SECONDS_IN_A_DAY : Int) : ℚ) + df[i].acq_time_s) := by
  constructor
  · simp [r_values_eq_map, List.getElem?_map, List.getElem?_eq_getElem, hi]
  · intro h; linarith

/-- Witness for C2: the boundary frame (`start_time_s = 86399`,
`acq_time_s = 120`) yields `left = 86399` and `right = 86519`, past the day
boundary, unclipped. -/
theorem C2_witness :
    0 < ([boundaryFrame] : List FrameRecord).length ∧
    (l_values [boundaryFrame])[0]? = some 86399 ∧
    (r_values [boundaryFrame])[0]? = some 86519 ∧
    (86399 : ℚ) ≤ 86519 := by
  have h := C2_right_is_left_plus_acq [boundaryFrame] 0 (by decide)
  refine ⟨by decide, by decide, ?_, by norm_num⟩
  rw [h.1]
  norm_num [boundaryFrame, List.getElem_cons_zero, SECONDS_IN_A_DAY]

/-- Claim C3 counterexample: the code performs no validation at all — a
sequence containing a record with `acq_time_s = -5` is transformed without
error, the output sequence is produced in full, and the malformed record
yields a rectangle with `right = left - 5`. -/
theorem C3_counterexample :
    normalize [badFrame] = [{ left := 0, right := -5, top := 0, bottom := 0 }] ∧
    (normalize [badFrame]).length = 1 := by
  constructor
  · norm_num [normalize, l_values, r_values, t_values, b_values, badFrame,
      SECONDS_IN_A_DAY]
  · rfl

/-- Claim C3 (amended): the transform never rejects a malformed record: even
when `acq_time_s` is negative, the output has the full input length and the
offending record is transformed like any other, its negative duration carried
into `right = left + acq_time_s`. -/
theorem C3_no_validation (df : List FrameRecord) (i : Nat) (hi : i < df.length)
    (hneg : df[i].acq_time_s < 0) :
    (normalize df).length = df.length ∧
    (normalize df)[i]? = some
      { left := df[i].start_time_s % SECONDS_IN_A_DAY
      , right := ((df[i].start_time_s % SECONDS_IN_A_DAY : Int) : ℚ) + df[i].acq_time_s
      , top := df[i].pixels_per_second
      , bottom := 0 } := by
  constructor
  · simp [normalize_eq_map]
  · simp [normalize_eq_map, List.getElem?_map, List.getElem?_eq_getElem, hi,
      frameToRect]

/-- Witness for the amended C3: the transform maps the malformed record
(`acq_time_s = -5`) to a rectangle instead of failing. -/
theorem C3_witness :
    (([badFrame] : List FrameRecord)[0].acq_time_s < 0) ∧
    ((normalize [badFrame]).length = ([badFrame] : List FrameRecord).length ∧
     (normalize [badFrame])[0]? = some
       { left := ([badFrame] : List FrameRecord)[0].start_time_s % SECONDS_IN_A_DAY
       , right := ((([badFrame] : List FrameRecord)[0].start_time_s % SECONDS_IN_A_DAY : Int) : ℚ)
           + ([badFrame] : List FrameRecord)[0].acq_time_s
       , top := ([badFrame] : List FrameRecord)[0].pixels_per_second
       , bottom := 0 }) :=
  ⟨by decide, C3_no_validation [badFrame] 0 (by decide) (by decide)⟩

/-- Claim C4: the output sequence has exactly the input's length, each output
entry is the per-frame transform of the input entry at the same index
(independent of all other frames), and the empty input yields the empty
output. -/
theorem C4_length_and_order (df : List FrameRecord) :
    (normalize df).length = df.length ∧
    normalize df = df.map frameToRect ∧
    normalize ([] : List FrameRecord) = [] := by
  refine ⟨?_, normalize_eq_map df, rfl⟩
  simp [normalize_eq_map]

/-- Claim C5: the top coordinate is the `pixels_per_second` column value,
passed through unchanged; it does not depend on `n_pixels` or `acq_time_s`
(replacing them by arbitrary values leaves the top coordinate intact), so no
recomputation or consistency check takes place. -/
theorem C5_top_passthrough (df : List FrameRecord) (i : Nat)
    (hi : i < df.length) (n : Int) (a : ℚ) :
    (t_values df)[i]? = some (df[i].pixels_per_second) ∧
    ((normalize df)[i]?).map RectangleCoordinates.top
      = some (df[i].pixels_per_second) ∧
    (frameToRect { df[i] with n_pixels := n, acq_time_s := a }).top
      = df[i].pixels_per_second := by
  refine ⟨?_, ?_, rfl⟩
  · simp [t_values, List.getElem?_map, List.getElem?_eq_getElem, hi]
  · simp [normalize_eq_map, List.getElem?_map, List.getElem?_eq_getElem, hi,
      frameToRect]

/-- Witness for C5: on the CSV's first row the top coordinate is the stored
rate 0.95, also after replacing the pixel count and duration. -/
theorem C5_witness :
    0 < ([exampleFrame] : List FrameRecord).length ∧
    ((t_values [exampleFrame])[0]? = some (([exampleFrame] : List FrameRecord)[0].pixels_per_second) ∧
     ((normalize [exampleFrame])[0]?).map RectangleCoordinates.top
       = some (([exampleFrame] : List FrameRecord)[0].pixels_per_second) ∧
     (frameToRect { ([exampleFrame] : List FrameRecord)[0] with n_pixels := 999, acq_time_s := 7 }).top
       = (([exampleFrame] : List FrameRecord)[0].pixels_per_second)) :=
  ⟨by decide, C5_top_passthrough [exampleFrame] 0 (by decide) 999 7⟩

/-- Claim C6 counterexample: on the CSV's second row (rate 0.683333 rounded
from 41/60, duration 60, pixel count 41) the rectangle's area, top times
(right minus left), is 40.99998, which differs from `n_pixels = 41`. -/
theorem C6_counterexample :
    ¬ ((frameToRect inconsistentFrame).top *
        ((frameToRect inconsistentFrame).right
          - ((frameToRect inconsistentFrame).left : ℚ))
        = (inconsistentFrame.n_pixels : ℚ)) := by
  norm_num [frameToRect, inconsistentFrame, SECONDS_IN_A_DAY]

/-- Claim C6 (amended): for every frame, the rectangle's area, top times
(right minus left), equals `pixels_per_second × acq_time_s`; and it equals the
recorded pixel count `n_pixels` exactly when the caller-supplied rate is
consistent, i.e. `pixels_per_second × acq_time_s = n_pixels` — a condition the
transform never checks. -/
theorem C6_area_equals_rate_times_duration (f : FrameRecord) :
    (frameToRect f).top * ((frameToRect f).right - ((frameToRect f).left : ℚ))
      = f.pixels_per_second * f.acq_time_s ∧
    ((frameToRect f).top * ((frameToRect f).right - ((frameToRect f).left : ℚ))
        = (f.n_pixels : ℚ)
      ↔ f.pixels_per_second * f.acq_time_s = (f.n_pixels : ℚ)) := by
  have harea : (frameToRect f).top *
      ((frameToRect f).right - ((frameToRect f).left : ℚ))
      = f.pixels_per_second * f.acq_time_s := by
    simp [frameToRect]
  exact ⟨harea, by rw [harea]⟩

/-- Claim C7: the transform is pure and stateless: it is an index-wise map of
a per-frame function (so no hidden state flows between frames or between
calls, and the output is determined by the input alone), and it distributes
over concatenation of input sequences. -/
theorem C7_pure_stateless (df df2 : List FrameRecord) :
    normalize df = df.map frameToRect ∧
    normalize (df ++ df2) = normalize df ++ normalize df2 := by
  refine ⟨normalize_eq_map df, ?_⟩
  simp [normalize_eq_map]

/-- Claim C8: the bottom coordinate is 0 for every frame, both in the
`b_values` list and in the assembled rectangle sequence. -/
theorem C8_bottom_zero (df : List FrameRecord) (i : Nat) (hi : i < df.length) :
    (b_values df)[i]? = some 0 ∧
    ((normalize df)[i]?).map RectangleCoordinates.bottom = some 0 := by
  constructor
  · simp [b_values_eq_map, List.getElem?_map, List.getElem?_eq_getElem, hi]
  · simp [normalize_eq_map, List.getElem?_map, List.getElem?_eq_getElem, hi,
      frameToRect]

/-- Witness for C8: the single-frame input yields bottom 0. -/
theorem C8_witness :
    0 < ([exampleFrame] : List FrameRecord).length ∧
    ((b_values [exampleFrame])[0]? = some 0 ∧
     ((normalize [exampleFrame])[0]?).map RectangleCoordinates.bottom = some 0) :=
  ⟨by decide, C8_bottom_zero [exampleFrame] 0 (by decide)⟩

/-- Claim C9: the scalar handed to the figure helper is computed by the
caller as the maximum of the top-value list; it equals the maximum top value
across the output rectangles, which is the maximum of the input
`pixels_per_second` column, and on non-empty input the figure is produced. -/
theorem C9_y_axis_limit_is_max_top (df : List FrameRecord) (h : df ≠ []) :
    dayPlotFigureOfFrames df
      = (listMax (df.map FrameRecord.pixels_per_second)).map get_day_plot_figure ∧
    listMax (t_values df)
      = listMax ((normalize df).map RectangleCoordinates.top) ∧
    (dayPlotFigureOfFrames df).isSome = true := by
  have htop : (normalize df).map RectangleCoordinates.top
      = df.map FrameRecord.pixels_per_second := by
    rw [normalize_eq_map, List.map_map]
    rfl
  refine ⟨rfl, ?_, ?_⟩
  · rw [htop]; rfl
  · obtain ⟨x, xs, rfl⟩ := List.exists_cons_of_ne_nil h
    simp [dayPlotFigureOfFrames, t_values, listMax]

/-- Witness for C9: on the single-row input the figure is produced with the
caller-computed maximum. -/
theorem C9_witness :
    ([exampleFrame] : List FrameRecord) ≠ [] ∧
    (dayPlotFigureOfFrames [exampleFrame]
       = (listMax ([exampleFrame].map FrameRecord.pixels_per_second)).map get_day_plot_figure ∧
     listMax (t_values [exampleFrame])
       = listMax ((normalize [exampleFrame]).map RectangleCoordinates.top) ∧
     (dayPlotFigureOfFrames [exampleFrame]).isSome = true) :=
  ⟨by decide, C9_y_axis_limit_is_max_top [exampleFrame] (by decide)⟩

/-- Claim C10: on the empty input the four coordinate lists are empty, but the
downstream plotting step fails: the maximum of the empty top-value list is an
error (`none`), so no figure is configured. -/
theorem C10_empty_input_breaks_downstream :
    l_values [] = [] ∧ r_values [] = [] ∧ t_values [] = [] ∧ b_values [] = [] ∧
    listMax (t_values []) = none ∧
    dayPlotFigureOfFrames [] = none :=
  ⟨rfl, rfl, rfl, rfl, rfl, rfl⟩

end BokehTS
